import Mathlib

/-!
Verification of the CareScore simulation engine from
`src/frontend/src/lib/api.ts` (the `BASELINE` constant,
`generateSimulationData`, and `calculateCareScore`).

Shallow embedding choices:
* JavaScript numbers are modelled as exact rationals (`ℚ`); all the
  arithmetic the engine performs (sums, differences, products, division
  by 10 and 30, `min`/`max` clamps) is exact on the inputs of interest,
  so `ℚ` is a faithful model away from floating-point rounding.
* `Math.round` in JavaScript rounds half toward positive infinity:
  `Math.round x = ⌊x + 0.5⌋` for every finite `x`; we model it that way.
* `Math.random()` draws are made explicit parameters: the series
  generator takes a function `rnd : ℕ → Fin 8 → ℚ` giving the value of
  the k-th `Math.random()` call inside loop iteration i (the source
  calls `noise` once per generated numeric field, eight per day), and
  the score calculator takes the single draw used for `confidence`.
* Dates are modelled at day granularity as integers: `subDays(now, n)`
  becomes subtraction of `n` from an integer day number `today`, and the
  `yyyy-MM-dd` string formatting is dropped (it is injective on days, so
  nothing the specification states about dates depends on it).
-/

/-- One day's physiological snapshot (`HealthMetric` in `api.ts`);
the `date` field is an integer day number. -/
structure HealthMetric where
  date : ℤ
  heartRate : ℚ
  hrv : ℚ
  sleepDuration : ℚ
  activityLevel : ℚ
  breathingRate : ℚ
  systolicBP : ℚ
  diastolicBP : ℚ
  bloodSugar : ℚ
  symptoms : List String
  deriving Repr, DecidableEq

/-- The four score components plus their rounded sum
(`CareScoreBreakdown` in `api.ts`). -/
structure CareScoreBreakdown where
  severity : ℚ
  persistence : ℚ
  crossSignal : ℚ
  manualModifier : ℚ
  total : ℤ
  deriving Repr, DecidableEq

/-- The status enumeration of `AnalysisResult.status` in `api.ts`. -/
inductive Status where
  | Stable
  | Mild
  | Moderate
  | High
  deriving Repr, DecidableEq

/-- Output envelope of `calculateCareScore` (`AnalysisResult` in `api.ts`). -/
structure AnalysisResult where
  currentScore : ℤ
  breakdown : CareScoreBreakdown
  status : Status
  driftDetected : Bool
  confidence : ℚ
  stability : ℚ
  trends : List HealthMetric
  deriving Repr, DecidableEq

/-- Baseline values for a healthy individual (the `BASELINE` constant). -/
structure Baseline where
  heartRate : ℚ
  hrv : ℚ
  sleepDuration : ℚ
  breathingRate : ℚ
  systolicBP : ℚ
  diastolicBP : ℚ
  bloodSugar : ℚ
  deriving Repr, DecidableEq

/-- `const BASELINE = { heartRate: 70, hrv: 65, sleepDuration: 7.5,
breathingRate: 14, systolicBP: 120, diastolicBP: 80, bloodSugar: 90 }`. -/
def BASELINE : Baseline :=
  { heartRate := 70
    hrv := 65
    sleepDuration := 7.5
    breathingRate := 14
    systolicBP := 120
    diastolicBP := 80
    bloodSugar := 90 }

/-- JavaScript `Math.round`: round half toward positive infinity. -/
def jsRound (x : ℚ) : ℤ := ⌊x + 1/2⌋

/-- Loop bound `const days = 60` in `generateSimulationData`. -/
def days : ℕ := 60

/-- `const driftFactor = i > 30 ? (i - 30) / 30 : 0`. -/
def driftFactor (i : ℕ) : ℚ := if i > 30 then ((i : ℚ) - 30) / 30 else 0

/-- The sample pushed for loop index `i` in `generateSimulationData`,
with the eight `Math.random()` draws of the iteration supplied by
`rnd : Fin 8 → ℚ` in source order; `noise(scale)` in the source is
`(Math.random() - 0.5) * scale`. -/
def simSample (today : ℤ) (i : ℕ) (rnd : Fin 8 → ℚ) : HealthMetric :=
  let noise : Fin 8 → ℚ → ℚ := fun k scale => (rnd k - 0.5) * scale
  { date := today - ((days : ℤ) - 1 - (i : ℤ))
    heartRate := BASELINE.heartRate + driftFactor i * 15 + noise 0 5
    hrv := BASELINE.hrv - driftFactor i * 20 + noise 1 10
    sleepDuration := max 4 (BASELINE.sleepDuration - driftFactor i * 2 + noise 2 1)
    activityLevel := 8000 - driftFactor i * 3000 + noise 3 2000
    breathingRate := BASELINE.breathingRate + driftFactor i * 4 + noise 4 2
    systolicBP := BASELINE.systolicBP + driftFactor i * 10 + noise 5 5
    diastolicBP := BASELINE.diastolicBP + driftFactor i * 5 + noise 6 5
    bloodSugar := BASELINE.bloodSugar + driftFactor i * 15 + noise 7 10
    symptoms := if i > 45 then ["Fatigue", "Mild Dizziness"] else [] }

/-- `generateSimulationData`: 60 days of data with a gradual clinical
drift, one sample per loop index `i ∈ [0, 60)`, dated
`subDays(today, days - 1 - i)`. -/
def generateSimulationData (today : ℤ) (rnd : ℕ → Fin 8 → ℚ) : List HealthMetric :=
  (List.range days).map (fun i => simSample today i (rnd i))

/-- `hrDev = Math.max(0, (metric.heartRate - BASELINE.heartRate) / 10)`. -/
def hrDev (m : HealthMetric) : ℚ := max 0 ((m.heartRate - BASELINE.heartRate) / 10)

/-- `hrvDev = Math.max(0, (BASELINE.hrv - metric.hrv) / 10)`. -/
def hrvDev (m : HealthMetric) : ℚ := max 0 ((BASELINE.hrv - m.hrv) / 10)

/-- `sleepDev = Math.max(0, BASELINE.sleepDuration - metric.sleepDuration)`. -/
def sleepDev (m : HealthMetric) : ℚ := max 0 (BASELINE.sleepDuration - m.sleepDuration)

/-- `severity = Math.min(40, (hrDev + hrvDev + sleepDev) * 5)`. -/
def severity (m : HealthMetric) : ℚ := min 40 ((hrDev m + hrvDev m + sleepDev m) * 5)

/-- `persistence = Math.min(25, severity * 0.6)`. -/
def persistence (m : HealthMetric) : ℚ := min 25 (severity m * 0.6)

/-- The count of the four cross-signal conditions (`signals` in the source,
incremented once per satisfied condition). -/
def signals (m : HealthMetric) : ℚ :=
  (if m.heartRate > BASELINE.heartRate + 5 then 1 else 0)
    + (if m.hrv < BASELINE.hrv - 5 then 1 else 0)
    + (if m.sleepDuration < BASELINE.sleepDuration - 1 then 1 else 0)
    + (if m.breathingRate > BASELINE.breathingRate + 2 then 1 else 0)

/-- `crossSignal = Math.min(20, signals * 5)`. -/
def crossSignal (m : HealthMetric) : ℚ := min 20 (signals m * 5)

/-- `manual`: `+5` for `systolicBP > 130`, `+5` for `bloodSugar > 110`,
`+5` for non-empty symptoms, then `manual = Math.min(15, manual)`. -/
def manualModifier (m : HealthMetric) : ℚ :=
  min 15
    ((if m.systolicBP > 130 then 5 else 0)
      + (if m.bloodSugar > 110 then 5 else 0)
      + (if m.symptoms.length > 0 then 5 else 0))

/-- `totalScore = Math.round(severity + persistence + crossSignal + manual)`. -/
def totalScore (m : HealthMetric) : ℤ :=
  jsRound (severity m + persistence m + crossSignal m + manualModifier m)

/-- The sequence of status assignments: start at `Stable`, overwrite with
`Mild` if `total > 30`, with `Moderate` if `total > 50`, with `High` if
`total > 70`; the last satisfied condition stands. -/
def statusOf (total : ℤ) : Status :=
  let s := Status.Stable
  let s := if total > 30 then Status.Mild else s
  let s := if total > 50 then Status.Moderate else s
  if total > 70 then Status.High else s

/-- `calculateCareScore`: scores one sample against `BASELINE`; `rand` is
the `Math.random()` draw used for the mock `confidence` value. -/
def calculateCareScore (m : HealthMetric) (rand : ℚ) : AnalysisResult :=
  { currentScore := totalScore m
    breakdown :=
      { severity := severity m
        persistence := persistence m
        crossSignal := crossSignal m
        manualModifier := manualModifier m
        total := totalScore m }
    status := statusOf (totalScore m)
    driftDetected := decide (totalScore m > 30)
    confidence := 85 + rand * 10
    stability := max 0 (100 - (totalScore m : ℚ))
    trends := [] }

/-- The sample of the spec's second boundary scenario; the fields the
scenario leaves arbitrary are parameters. -/
def highSample (date : ℤ) (activityLevel diastolicBP : ℚ) : HealthMetric :=
  { date := date
    heartRate := 100
    hrv := 45
    sleepDuration := 5.5
    activityLevel := activityLevel
    breathingRate := 18
    systolicBP := 135
    diastolicBP := diastolicBP
    bloodSugar := 120
    symptoms := ["Fatigue"] }

/-- The sample sitting exactly at `BASELINE` (first boundary scenario);
`date` and `activityLevel` are not part of the baseline and stay parameters. -/
def baselineSample (date : ℤ) (activityLevel : ℚ) : HealthMetric :=
  { date := date
    heartRate := BASELINE.heartRate
    hrv := BASELINE.hrv
    sleepDuration := BASELINE.sleepDuration
    activityLevel := activityLevel
    breathingRate := BASELINE.breathingRate
    systolicBP := BASELINE.systolicBP
    diastolicBP := BASELINE.diastolicBP
    bloodSugar := BASELINE.bloodSugar
    symptoms := [] }

lemma severity_nonneg (m : HealthMetric) : 0 ≤ severity m := by
  refine le_min (by norm_num) ?_
  have h1 : (0:ℚ) ≤ hrDev m := le_max_left _ _
  have h2 : (0:ℚ) ≤ hrvDev m := le_max_left _ _
  have h3 : (0:ℚ) ≤ sleepDev m := le_max_left _ _
  nlinarith

lemma severity_le_forty (m : HealthMetric) : severity m ≤ 40 := min_le_left _ _

lemma persistence_nonneg (m : HealthMetric) : 0 ≤ persistence m :=
  le_min (by norm_num) (by nlinarith [severity_nonneg m])

lemma persistence_le_24 (m : HealthMetric) : persistence m ≤ 24 := by
  have h : severity m * 0.6 ≤ 24 := by nlinarith [severity_le_forty m]
  calc persistence m ≤ severity m * 0.6 := min_le_right _ _
    _ ≤ 24 := h

lemma signals_nonneg (m : HealthMetric) : 0 ≤ signals m := by
  unfold signals; split_ifs <;> norm_num

lemma crossSignal_nonneg (m : HealthMetric) : 0 ≤ crossSignal m :=
  le_min (by norm_num) (by nlinarith [signals_nonneg m])

lemma manualModifier_nonneg (m : HealthMetric) : 0 ≤ manualModifier m := by
  refine le_min (by norm_num) ?_
  split_ifs <;> norm_num

lemma totalScore_le_99 (m : HealthMetric) : totalScore m ≤ 99 := by
  have hsum : severity m + persistence m + crossSignal m + manualModifier m ≤ 99 := by
    have h1 := severity_le_forty m
    have h2 := persistence_le_24 m
    have h3 : crossSignal m ≤ 20 := min_le_left _ _
    have h4 : manualModifier m ≤ 15 := min_le_left _ _
    linarith
  have := Int.floor_mono (a := severity m + persistence m + crossSignal m
      + manualModifier m + 1/2) (b := 99 + 1/2) (by linarith)
  calc totalScore m ≤ ⌊(99 : ℚ) + 1/2⌋ := this
    _ = 99 := by norm_num

lemma totalScore_nonneg (m : HealthMetric) : 0 ≤ totalScore m := by
  have hsum : 0 ≤ severity m + persistence m + crossSignal m + manualModifier m := by
    have h1 := severity_nonneg m
    have h2 := persistence_nonneg m
    have h3 := crossSignal_nonneg m
    have h4 := manualModifier_nonneg m
    linarith
  have h : (0 : ℤ) = ⌊(0 : ℚ) + 1/2⌋ := by norm_num
  rw [h]
  exact Int.floor_mono (by linarith)

/-- C2: every component of the breakdown lies within its documented cap
(severity in [0, 40], persistence in [0, 25], crossSignal in [0, 20],
manualModifier in [0, 15]), and total is the rounded sum of the four
components, which is at most 100. -/
theorem careScore_component_caps (m : HealthMetric) (rand : ℚ) :
    (0 ≤ (calculateCareScore m rand).breakdown.severity ∧
      (calculateCareScore m rand).breakdown.severity ≤ 40) ∧
    (0 ≤ (calculateCareScore m rand).breakdown.persistence ∧
      (calculateCareScore m rand).breakdown.persistence ≤ 25) ∧
    (0 ≤ (calculateCareScore m rand).breakdown.crossSignal ∧
      (calculateCareScore m rand).breakdown.crossSignal ≤ 20) ∧
    (0 ≤ (calculateCareScore m rand).breakdown.manualModifier ∧
      (calculateCareScore m rand).breakdown.manualModifier ≤ 15) ∧
    (calculateCareScore m rand).breakdown.total =
      jsRound ((calculateCareScore m rand).breakdown.severity
        + (calculateCareScore m rand).breakdown.persistence
        + (calculateCareScore m rand).breakdown.crossSignal
        + (calculateCareScore m rand).breakdown.manualModifier) ∧
    (calculateCareScore m rand).breakdown.total ≤ 100 := by
  simp only [calculateCareScore]
  refine ⟨⟨severity_nonneg m, severity_le_forty m⟩,
    ⟨persistence_nonneg m, min_le_left _ _⟩,
    ⟨crossSignal_nonneg m, min_le_left _ _⟩,
    ⟨manualModifier_nonneg m, min_le_left _ _⟩,
    rfl, ?_⟩
  have := totalScore_le_99 m
  omega

/-- C3: the status is a function of the total score alone, by strictly
ordered thresholds with the highest satisfied threshold standing: Stable
iff total ≤ 30, Mild iff 30 < total ≤ 50, Moderate iff 50 < total ≤ 70,
High iff total > 70 (so a total of exactly 50 classifies as Mild). -/
theorem careScore_status_thresholds (m : HealthMetric) (rand : ℚ) :
    ((calculateCareScore m rand).status = Status.Stable ↔
      (calculateCareScore m rand).currentScore ≤ 30) ∧
    ((calculateCareScore m rand).status = Status.Mild ↔
      30 < (calculateCareScore m rand).currentScore ∧
        (calculateCareScore m rand).currentScore ≤ 50) ∧
    ((calculateCareScore m rand).status = Status.Moderate ↔
      50 < (calculateCareScore m rand).currentScore ∧
        (calculateCareScore m rand).currentScore ≤ 70) ∧
    ((calculateCareScore m rand).status = Status.High ↔
      70 < (calculateCareScore m rand).currentScore) := by
  simp only [calculateCareScore, statusOf]
  split_ifs <;> refine ⟨?_, ?_, ?_, ?_⟩ <;> simp <;> omega

/-- C5: driftDetected holds exactly when the total score exceeds 30, and
stability equals max(0, 100 − total); both are functions of the returned
total score alone. -/
theorem careScore_drift_stability (m : HealthMetric) (rand : ℚ) :
    (calculateCareScore m rand).driftDetected =
      decide (30 < (calculateCareScore m rand).currentScore) ∧
    (calculateCareScore m rand).stability =
      max 0 (100 - ((calculateCareScore m rand).currentScore : ℚ)) := by
  exact ⟨rfl, rfl⟩

/-- C9: the min-25 clamp on persistence never binds: persistence equals
severity · 0.6 exactly and is at most 24; hence total is at most 99 (the
conceptual cap of 100 is never attained) and stability equals 100 − total
and is at least 1, so the max(0, ·) clamp in stability is never active. -/
theorem careScore_persistence_unclamped (m : HealthMetric) (rand : ℚ) :
    persistence m = severity m * 0.6 ∧
    persistence m ≤ 24 ∧
    (calculateCareScore m rand).breakdown.total ≤ 99 ∧
    (calculateCareScore m rand).stability =
      100 - ((calculateCareScore m rand).currentScore : ℚ) ∧
    1 ≤ (calculateCareScore m rand).stability := by
  have hmul : severity m * 0.6 ≤ 24 := by nlinarith [severity_le_forty m]
  have hpe : persistence m = severity m * 0.6 :=
    min_eq_right (le_trans hmul (by norm_num))
  have htot : totalScore m ≤ 99 := totalScore_le_99 m
  have hcast : ((totalScore m : ℚ)) ≤ 99 := by exact_mod_cast htot
  have hst : max 0 (100 - ((totalScore m : ℚ))) = 100 - (totalScore m : ℚ) :=
    max_eq_right (by linarith)
  refine ⟨hpe, by rw [hpe]; exact hmul, ?_, ?_, ?_⟩
  · simpa [calculateCareScore] using htot
  · simpa [calculateCareScore] using hst
  · simp only [calculateCareScore]
    rw [hst]
    linarith

/-- C10: `calculateCareScore` never reads the date, activityLevel or
diastolicBP fields: two samples agreeing on all other fields yield
identical currentScore, breakdown, status, driftDetected and stability,
regardless of the random draw used for confidence. -/
theorem careScore_ignores_unread_fields (m₁ m₂ : HealthMetric) (r₁ r₂ : ℚ)
    (hHR : m₁.heartRate = m₂.heartRate) (hHRV : m₁.hrv = m₂.hrv)
    (hSl : m₁.sleepDuration = m₂.sleepDuration)
    (hBr : m₁.breathingRate = m₂.breathingRate)
    (hSys : m₁.systolicBP = m₂.systolicBP)
    (hBS : m₁.bloodSugar = m₂.bloodSugar)
    (hSym : m₁.symptoms = m₂.symptoms) :
    (calculateCareScore m₁ r₁).currentScore = (calculateCareScore m₂ r₂).currentScore ∧
    (calculateCareScore m₁ r₁).breakdown = (calculateCareScore m₂ r₂).breakdown ∧
    (calculateCareScore m₁ r₁).status = (calculateCareScore m₂ r₂).status ∧
    (calculateCareScore m₁ r₁).driftDetected = (calculateCareScore m₂ r₂).driftDetected ∧
    (calculateCareScore m₁ r₁).stability = (calculateCareScore m₂ r₂).stability := by
  have hsev : severity m₁ = severity m₂ := by
    simp [severity, hrDev, hrvDev, sleepDev, hHR, hHRV, hSl]
  have hper : persistence m₁ = persistence m₂ := by
    simp [persistence, hsev]
  have hsig : signals m₁ = signals m₂ := by
    simp [signals, hHR, hHRV, hSl, hBr]
  have hcs : crossSignal m₁ = crossSignal m₂ := by
    simp [crossSignal, hsig]
  have hman : manualModifier m₁ = manualModifier m₂ := by
    simp [manualModifier, hSys, hBS, hSym]
  have htot : totalScore m₁ = totalScore m₂ := by
    simp [totalScore, hsev, hper, hcs, hman]
  refine ⟨?_, ?_, ?_, ?_, ?_⟩ <;>
    simp [calculateCareScore, hsev, hper, hcs, hman, htot]

/-- C10 witness: two concrete samples differing only in date,
activityLevel and diastolicBP produce identical deterministic outputs. -/
theorem careScore_ignores_unread_fields_witness :
    (calculateCareScore (highSample 0 8000 80) 0).currentScore =
      (calculateCareScore (highSample 7 100 999) 1).currentScore ∧
    (calculateCareScore (highSample 0 8000 80) 0).breakdown =
      (calculateCareScore (highSample 7 100 999) 1).breakdown ∧
    (calculateCareScore (highSample 0 8000 80) 0).status =
      (calculateCareScore (highSample 7 100 999) 1).status ∧
    (calculateCareScore (highSample 0 8000 80) 0).driftDetected =
      (calculateCareScore (highSample 7 100 999) 1).driftDetected ∧
    (calculateCareScore (highSample 0 8000 80) 0).stability =
      (calculateCareScore (highSample 7 100 999) 1).stability :=
  careScore_ignores_unread_fields (highSample 0 8000 80) (highSample 7 100 999) 0 1
    rfl rfl rfl rfl rfl rfl rfl

/-- C1: for the literal input sample with heartRate 100, hrv 45,
sleepDuration 5.5, breathingRate 18, systolicBP 135, bloodSugar 120 and
symptoms `["Fatigue"]` (date, activityLevel, diastolicBP arbitrary),
`calculateCareScore` returns severity 35, persistence 21, crossSignal 20,
manualModifier 15, total 91, status `High`, and driftDetected `true`. -/
theorem careScore_highSample_eval (date : ℤ) (activityLevel diastolicBP rand : ℚ) :
    (calculateCareScore (highSample date activityLevel diastolicBP) rand).breakdown =
      { severity := 35, persistence := 21, crossSignal := 20,
        manualModifier := 15, total := 91 } ∧
    (calculateCareScore (highSample date activityLevel diastolicBP) rand).status =
      Status.High ∧
    (calculateCareScore (highSample date activityLevel diastolicBP) rand).driftDetected =
      true := by
  have htot : totalScore (highSample date activityLevel diastolicBP) = 91 := by
    norm_num [totalScore, jsRound, severity, persistence, crossSignal, manualModifier,
      signals, hrDev, hrvDev, sleepDev, highSample, BASELINE, Int.floor_eq_iff]
  refine ⟨?_, ?_, ?_⟩
  · simp only [calculateCareScore, htot]
    norm_num [severity, persistence, crossSignal, manualModifier,
      signals, hrDev, hrvDev, sleepDev, highSample, BASELINE]
  · simp [calculateCareScore, htot, statusOf]
  · simp [calculateCareScore, htot]

/-- C4: for the input sample exactly at the fixed baseline,
`calculateCareScore` returns severity 0, persistence 0, crossSignal 0,
manualModifier 0, total 0, status `Stable`, and driftDetected `false`. -/
theorem careScore_baselineSample_eval (date : ℤ) (activityLevel rand : ℚ) :
    (calculateCareScore (baselineSample date activityLevel) rand).breakdown =
      { severity := 0, persistence := 0, crossSignal := 0,
        manualModifier := 0, total := 0 } ∧
    (calculateCareScore (baselineSample date activityLevel) rand).status =
      Status.Stable ∧
    (calculateCareScore (baselineSample date activityLevel) rand).driftDetected =
      false := by
  have htot : totalScore (baselineSample date activityLevel) = 0 := by
    norm_num [totalScore, jsRound, severity, persistence, crossSignal, manualModifier,
      signals, hrDev, hrvDev, sleepDev, baselineSample, BASELINE, Int.floor_eq_iff]
  refine ⟨?_, ?_, ?_⟩
  · simp only [calculateCareScore, htot]
    norm_num [severity, persistence, crossSignal, manualModifier,
      signals, hrDev, hrvDev, sleepDev, baselineSample, BASELINE]
  · simp [calculateCareScore, htot, statusOf]
  · simp [calculateCareScore, htot]

lemma generateSimulationData_map_date (today : ℤ) (rnd : ℕ → Fin 8 → ℚ) :
    (generateSimulationData today rnd).map HealthMetric.date =
      (List.range 60).map (fun i : ℕ => today - 59 + (i : ℤ)) := by
  unfold generateSimulationData days
  rw [List.map_map]
  refine List.map_congr_left fun i hi => ?_
  simp only [Function.comp_apply, simSample, days]
  push_cast
  ring

/-- C6: every generated series has length exactly 60, one sample per
calendar day with dates strictly increasing by one day (oldest first),
and the last sample dated "today". -/
theorem generateSimulationData_sixty_days (today : ℤ) (rnd : ℕ → Fin 8 → ℚ) :
    (generateSimulationData today rnd).length = 60 ∧
    (generateSimulationData today rnd).map HealthMetric.date =
      (List.range 60).map (fun i : ℕ => today - 59 + (i : ℤ)) ∧
    List.Chain' (fun a b => a.date + 1 = b.date) (generateSimulationData today rnd) ∧
    ((generateSimulationData today rnd).map HealthMetric.date).getLast? = some today := by
  have hmap := generateSimulationData_map_date today rnd
  have h60 : List.range 60 = List.range 59 ++ [59] := List.range_succ 59
  refine ⟨by simp [generateSimulationData, days], hmap, ?_, ?_⟩
  · have hch : List.Chain' (fun x y : ℤ => x + 1 = y)
        ((generateSimulationData today rnd).map HealthMetric.date) := by
      rw [hmap, List.chain'_map]
      refine (List.chain'_range_succ _ 59).mpr fun m hm => ?_
      push_cast
      ring
    exact (List.chain'_map HealthMetric.date).mp hch
  · rw [hmap, h60, List.map_append]
    rw [List.map_cons, List.map_nil, List.getLast?_concat]
    norm_num

/-- C7: the drift factor is 0 up to day index 30 and ramps linearly as
(i − 30)/30 afterwards, so with the noise draws fixed at their zero point
(Math.random() = 0.5) every metric of a sample with index at most 30
equals its baseline value (heartRate 70, hrv 65, sleepDuration 7.5,
activityLevel 8000, breathingRate 14, systolicBP 120, diastolicBP 80,
bloodSugar 90). -/
theorem generateSimulationData_baseline_before_drift (today : ℤ) (i j : ℕ)
    (h30 : i ≤ 30) (hj : 30 < j) :
    driftFactor i = 0 ∧
    driftFactor j = ((j : ℚ) - 30) / 30 ∧
    (generateSimulationData today (fun _ _ => 1/2))[i]? = some
      { date := today - 59 + (i : ℤ), heartRate := 70, hrv := 65,
        sleepDuration := 7.5, activityLevel := 8000, breathingRate := 14,
        systolicBP := 120, diastolicBP := 80, bloodSugar := 90,
        symptoms := [] } := by
  have hi60 : i < 60 := by omega
  have hnot : ¬ (30 < i) := by omega
  have hdf : driftFactor i = 0 := by simp [driftFactor, hnot]
  have hs : ¬ (45 < i) := by omega
  refine ⟨hdf, by simp [driftFactor, hj], ?_⟩
  unfold generateSimulationData days
  rw [List.getElem?_map, List.getElem?_range hi60, Option.map_some']
  rw [Option.some.injEq]
  simp only [simSample, days, BASELINE, hdf]
  rw [HealthMetric.mk.injEq]
  refine ⟨by push_cast; ring, by norm_num, by norm_num, by norm_num, by norm_num,
    by norm_num, by norm_num, by norm_num, by norm_num, by simp [hs]⟩

/-- C7 witness: at day index 30 the drift factor is 0 and the zero-noise
sample sits exactly at baseline; at index 31 the ramp starts at 1/30. -/
theorem generateSimulationData_baseline_before_drift_witness :
    driftFactor 30 = 0 ∧
    driftFactor 31 = ((31 : ℚ) - 30) / 30 ∧
    (generateSimulationData 5 (fun _ _ => 1/2))[30]? = some
      { date := 5 - 59 + ((30 : ℕ) : ℤ), heartRate := 70, hrv := 65,
        sleepDuration := 7.5, activityLevel := 8000, breathingRate := 14,
        systolicBP := 120, diastolicBP := 80, bloodSugar := 90,
        symptoms := [] } :=
  generateSimulationData_baseline_before_drift 5 30 31 (by decide) (by decide)

/-- C8: the symptoms of the sample at day index i are empty for i ≤ 45
and the fixed two-item list for i > 45, and exactly 14 of the 60 day
indices satisfy i > 45 (the last 14 days of the window). -/
theorem generateSimulationData_symptoms (today : ℤ) (rnd : ℕ → Fin 8 → ℚ) (i : ℕ)
    (h : i < (generateSimulationData today rnd).length) :
    ((generateSimulationData today rnd).get ⟨i, h⟩).symptoms =
      (if 45 < i then ["Fatigue", "Mild Dizziness"] else []) ∧
    ((List.range 60).filter (fun j => 45 < j)).length = 14 := by
  refine ⟨?_, by decide⟩
  have hi : i < 60 := by
    simpa [generateSimulationData, days] using h
  simp [generateSimulationData, days, List.get_eq_getElem, List.getElem_map,
    List.getElem_range, simSample]

/-- C8 witness: at day index 46 of a concrete series the symptoms are the
two-item list, and 14 of the 60 indices exceed 45. -/
theorem generateSimulationData_symptoms_witness :
    ((generateSimulationData 0 (fun _ _ => 0)).get
        ⟨46, by simp [generateSimulationData, days]⟩).symptoms =
      (if 45 < (46:ℕ) then ["Fatigue", "Mild Dizziness"] else []) ∧
    ((List.range 60).filter (fun j => 45 < j)).length = 14 :=
  generateSimulationData_symptoms 0 (fun _ _ => 0) 46
    (by simp [generateSimulationData, days])
